import Mathlib

/-!
Shallow embedding of the `little_exif` EXIF/JPEG engine
(`src/metadata.rs` and `src/jpg.rs`) and proofs about it.

Rust `Vec<u8>` buffers are modelled as `List Nat` (each element a byte
value), machine integers as `Nat` with explicit `% 2 ^ w` where wrap-around
matters.  Fallible Rust code is modelled with the four-way result type
`RRes`: `ok` for `Ok`, `err` for a returned `std::io::Error`, `panicked`
for a Rust panic (explicit `panic!` / `unreachable!` / `assert!` failure /
out-of-range slice index / `.unwrap()` on `None`), and `timeout` for
fuel exhaustion of the fuel-indexed loop models (the Rust loops have no
fuel; `timeout` for every fuel witnesses non-termination of the source
loop on that input).

The repository's `src/` holds only `metadata.rs` and `jpg.rs`.  The
helper modules they import (`exif_tag.rs`, `exif_tag_format.rs`,
`endian.rs`, `u8conversion.rs`, `general_file_io.rs`, `util.rs`) are not
part of the given sources, so those few definitions are modelled from
the spec; each such definition carries a doc comment saying so.
-/

namespace LittleExif

/-- Result of a fallible Rust computation; see the header comment. -/
inductive RRes (α : Type) where
  | ok (val : α)
  | err
  | panicked
  | timeout
deriving DecidableEq, Repr

/-- Monadic sequencing on `RRes`: propagate `err` / `panicked` / `timeout`. -/
def RRes.bind {α β : Type} (r : RRes α) (f : α → RRes β) : RRes β :=
  match r with
  | .ok a => f a
  | .err => .err
  | .panicked => .panicked
  | .timeout => .timeout

/-- Rust slice `l[a..b]`: `some` of the sub-list when `a ≤ b ≤ l.length`,
`none` (a panic at the call sites) otherwise. -/
def listSlice (l : List Nat) (a b : Nat) : Option (List Nat) :=
  if a ≤ b ∧ b ≤ l.length then some ((l.drop a).take (b - a)) else none

/-- Modelled from the spec: the two byte orders (`endian.rs` is not under
`src/`). -/
inductive Endian where
  | Little
  | Big
deriving DecidableEq, Repr

/-- Modelled from the spec: `from_u8_vec` of `u8conversion.rs` (not under
`src/`) — read an unsigned integer from a byte sequence in the given byte
order. -/
def fromU8Vec (endian : Endian) (bytes : List Nat) : Nat :=
  match endian with
  | .Little => bytes.foldr (fun b acc => acc * 256 + b) 0
  | .Big => bytes.foldl (fun acc b => acc * 256 + b) 0

/-- Modelled from the spec: `to_u8_vec` of `u8conversion.rs` (not under
`src/`) for a `u16` value. -/
def toU8Vec16 (endian : Endian) (v : Nat) : List Nat :=
  match endian with
  | .Little => [v % 256, v / 256 % 256]
  | .Big => [v / 256 % 256, v % 256]

/-- Modelled from the spec: `to_u8_vec` of `u8conversion.rs` (not under
`src/`) for a `u32` value. -/
def toU8Vec32 (endian : Endian) (v : Nat) : List Nat :=
  match endian with
  | .Little => [v % 256, v / 256 % 256, v / 2 ^ 16 % 256, v / 2 ^ 24 % 256]
  | .Big => [v / 2 ^ 24 % 256, v / 2 ^ 16 % 256, v / 256 % 256, v % 256]

/-- Modelled from the spec: the fixed 6-byte EXIF preamble
(`general_file_io.rs` is not under `src/`). -/
def EXIF_HEADER : List Nat := [0x45, 0x78, 0x69, 0x66, 0x00, 0x00]

/-- Modelled from the spec (section 6): the endian-specific 8-byte TIFF
header — "II"/"MM" marker, the magic `0x2A`, and the 4-byte offset (8) to
IFD0. -/
def Endian.header : Endian → List Nat
  | .Little => [0x49, 0x49, 0x2a, 0x00, 0x08, 0x00, 0x00, 0x00]
  | .Big => [0x4d, 0x4d, 0x00, 0x2a, 0x00, 0x00, 0x00, 0x08]

/-- Modelled from the spec: the ordered IFD group enumeration
(`exif_tag.rs` is not under `src/`); IFD0 < ExifIFD < GPSIFD <
InteropIFD. -/
inductive ExifTagGroup where
  | IFD0
  | ExifIFD
  | GPSIFD
  | InteropIFD
deriving DecidableEq, Repr, Fintype

/-- Rank realising the spec's ordering of the groups. -/
def ExifTagGroup.toNat : ExifTagGroup → Nat
  | .IFD0 => 0
  | .ExifIFD => 1
  | .GPSIFD => 2
  | .InteropIFD => 3

/-- Modelled from the spec: the TIFF value formats (`exif_tag_format.rs`
is not under `src/`). -/
inductive ExifTagFormat where
  | INT8U
  | STRING
  | INT16U
  | INT32U
  | RATIONAL64U
  | INT8S
  | UNDEF
  | INT16S
  | INT32S
  | RATIONAL64S
  | FLOAT
  | DOUBLE
deriving DecidableEq, Repr, Fintype

/-- Modelled from the spec: resolve a raw TIFF format code; codes outside
1..12 are unknown. -/
def ExifTagFormat.from_u16 : Nat → Option ExifTagFormat
  | 1 => some .INT8U
  | 2 => some .STRING
  | 3 => some .INT16U
  | 4 => some .INT32U
  | 5 => some .RATIONAL64U
  | 6 => some .INT8S
  | 7 => some .UNDEF
  | 8 => some .INT16S
  | 9 => some .INT32S
  | 10 => some .RATIONAL64S
  | 11 => some .FLOAT
  | 12 => some .DOUBLE
  | _ => none

/-- Modelled from the spec: the numeric TIFF code of each format. -/
def ExifTagFormat.as_u16 : ExifTagFormat → Nat
  | .INT8U => 1
  | .STRING => 2
  | .INT16U => 3
  | .INT32U => 4
  | .RATIONAL64U => 5
  | .INT8S => 6
  | .UNDEF => 7
  | .INT16S => 8
  | .INT32S => 9
  | .RATIONAL64S => 10
  | .FLOAT => 11
  | .DOUBLE => 12

/-- Modelled from the spec: bytes per component of each format. -/
def ExifTagFormat.bytes_per_component : ExifTagFormat → Nat
  | .INT8U => 1
  | .STRING => 1
  | .INT16U => 2
  | .INT32U => 4
  | .RATIONAL64U => 8
  | .INT8S => 1
  | .UNDEF => 1
  | .INT16S => 2
  | .INT32S => 4
  | .RATIONAL64S => 8
  | .FLOAT => 4
  | .DOUBLE => 8

/-- Split a byte list into 16-bit components in the given byte order
(the `INT16U` reading of `u8conversion.rs`, modelled from the spec). -/
def u16Chunks (endian : Endian) : List Nat → List Nat
  | a :: b :: rest => fromU8Vec endian [a, b] :: u16Chunks endian rest
  | _ => []

/-- Split a byte list into 32-bit components in the given byte order
(the `INT32U` reading of `u8conversion.rs`, modelled from the spec). -/
def u32Chunks (endian : Endian) : List Nat → List Nat
  | a :: b :: c :: d :: rest => fromU8Vec endian [a, b, c, d] :: u32Chunks endian rest
  | _ => []

/-- Modelled from the spec: the closed tag variant type of `exif_tag.rs`
(not under `src/`) — a handful of representative recognized tags, each
holding its typed value, plus the catch-all unknown variant holding id,
raw format code and raw bytes.  The representatives cover the ids the
engine in `src/` manipulates itself (`ExifOffset`, `InteropOffset`) and
one tag per canonical format class used in the proofs. -/
inductive ExifTag where
  | ImageWidth (value : List Nat)
  | ImageDescription (value : List Nat)
  | ISO (value : List Nat)
  | ExifOffset (value : List Nat)
  | InteropOffset (value : List Nat)
  | Unknown (value : List Nat) (tag_id : Nat) (format_code : Nat) (group : ExifTagGroup)
deriving DecidableEq, Repr

/-- Modelled from the spec: the 16-bit id of a tag. -/
def ExifTag.as_u16 : ExifTag → Nat
  | .ImageWidth _ => 0x0100
  | .ImageDescription _ => 0x010e
  | .ISO _ => 0x8827
  | .ExifOffset _ => 0x8769
  | .InteropOffset _ => 0xa005
  | .Unknown _ tag_id _ _ => tag_id

/-- Modelled from the spec: the canonical format of a tag; the unknown
variant keeps its raw on-wire format code. -/
def ExifTag.format : ExifTag → ExifTagFormat
  | .ImageWidth _ => .INT32U
  | .ImageDescription _ => .STRING
  | .ISO _ => .INT16U
  | .ExifOffset _ => .INT32U
  | .InteropOffset _ => .INT32U
  | .Unknown _ _ format_code _ => (ExifTagFormat.from_u16 format_code).getD .UNDEF

/-- Modelled from the spec: the IFD group a tag belongs to. -/
def ExifTag.get_group : ExifTag → ExifTagGroup
  | .ImageWidth _ => .IFD0
  | .ImageDescription _ => .IFD0
  | .ISO _ => .ExifIFD
  | .ExifOffset _ => .IFD0
  | .InteropOffset _ => .ExifIFD
  | .Unknown _ _ _ group => group

/-- Modelled from the spec: whether a tag is the unknown fallback. -/
def ExifTag.is_unknown : ExifTag → Bool
  | .Unknown _ _ _ _ => true
  | _ => false

/-- Modelled from the spec: whether a tag is written out by the encoder;
SubIFD pointer tags are synthesized by the encoder and are not
themselves writable. -/
def ExifTag.is_writable : ExifTag → Bool
  | .ExifOffset _ => false
  | .InteropOffset _ => false
  | _ => true

/-- Modelled from the spec: whether a tag holds an ASCII string value. -/
def ExifTag.is_string : ExifTag → Bool
  | .ImageDescription _ => true
  | _ => false

/-- Modelled from the spec: whether the tag is an offset pointer to a
SubIFD, and to which group. -/
def ExifTag.is_offset_tag : ExifTag → Option ExifTagGroup
  | .ExifOffset _ => some .ExifIFD
  | .InteropOffset _ => some .InteropIFD
  | _ => none

/-- Modelled from the spec: component count, derived from the held
value's length. -/
def ExifTag.number_of_components : ExifTag → Nat
  | .ImageWidth value => value.length
  | .ImageDescription value => value.length
  | .ISO value => value.length
  | .ExifOffset value => value.length
  | .InteropOffset value => value.length
  | .Unknown value _ _ _ => value.length

/-- Modelled from the spec: serialize the held value to its on-wire byte
sequence for the given byte order. -/
def ExifTag.value_as_u8_vec (tag : ExifTag) (endian : Endian) : List Nat :=
  match tag with
  | .ImageWidth value => value.flatMap (toU8Vec32 endian)
  | .ImageDescription value => value
  | .ISO value => value.flatMap (toU8Vec16 endian)
  | .ExifOffset value => value.flatMap (toU8Vec32 endian)
  | .InteropOffset value => value.flatMap (toU8Vec32 endian)
  | .Unknown value _ _ _ => value

/-- Modelled from the spec: construct the default-valued tag for a known
id (`ExifTag::from_u16`); `none` models the `Err` of the Rust function
for unrecognized ids. -/
def ExifTag.from_u16 : Nat → Option ExifTag
  | 0x0100 => some (.ImageWidth [0])
  | 0x010e => some (.ImageDescription [])
  | 0x8827 => some (.ISO [0])
  | 0x8769 => some (.ExifOffset [0])
  | 0xa005 => some (.InteropOffset [0])
  | _ => none

/-- Modelled from the spec: replace the value of a canonically
32-bit-unsigned tag (`set_value_to_int32u_vec`); `none` for tags of any
other canonical format. -/
def ExifTag.set_value_to_int32u_vec (tag : ExifTag) (v : List Nat) : Option ExifTag :=
  match tag with
  | .ImageWidth _ => some (.ImageWidth v)
  | .ExifOffset _ => some (.ExifOffset v)
  | .InteropOffset _ => some (.InteropOffset v)
  | _ => none

/-- Modelled from the spec: format-aware construction of a tag from
(id, format, raw bytes, endian, group); unrecognized ids produce the
unknown fallback carrying the traversal group. -/
def ExifTag.from_u16_with_data (hex_tag : Nat) (format : ExifTagFormat) (raw : List Nat)
    (endian : Endian) (group : ExifTagGroup) : Option ExifTag :=
  match hex_tag with
  | 0x0100 => some (.ImageWidth (u32Chunks endian raw))
  | 0x010e => some (.ImageDescription raw)
  | 0x8827 => some (.ISO (u16Chunks endian raw))
  | 0x8769 => some (.ExifOffset (u32Chunks endian raw))
  | 0xa005 => some (.InteropOffset (u32Chunks endian raw))
  | _ => some (.Unknown raw hex_tag format.as_u16 group)

/-- `IFD_ENTRY_LENGTH` of `metadata.rs`. -/
def IFD_ENTRY_LENGTH : Nat := 12

/-- `IFD_END` of `metadata.rs`. -/
def IFD_END : List Nat := [0x00, 0x00, 0x00, 0x00]

/-- The `Metadata` struct of `metadata.rs`: tag sequence plus endianness. -/
structure Metadata where
  data : List ExifTag
  endian : Endian
deriving DecidableEq, Repr

/-- `Metadata::new` of `metadata.rs`: empty, little-endian. -/
def Metadata.new : Metadata := { endian := .Little, data := [] }

/-- The comparator closure of `Metadata::set_tag` (`metadata.rs` lines
251-270), factored over the two projections it inspects so that its
order-theoretic properties can be settled by finite case analysis. -/
def tagKeyCmp (ga : ExifTagGroup) (ua : Bool) (gb : ExifTagGroup) (ub : Bool) : Ordering :=
  if ga = gb then
    if ua = ub then .eq
    else if ua = false ∧ ub = true then .lt
    else .gt
  else if ga.toNat < gb.toNat then .lt
  else .gt

/-- The comparator of `Metadata::set_tag` applied to two tags. -/
def tagCmp (a b : ExifTag) : Ordering :=
  tagKeyCmp a.get_group a.is_unknown b.get_group b.is_unknown

/-- Boolean "not Greater" reading of the comparator at the key level. -/
def tagKeyLe (ga : ExifTagGroup) (ua : Bool) (gb : ExifTagGroup) (ub : Bool) : Bool :=
  match tagKeyCmp ga ua gb ub with
  | .gt => false
  | _ => true

/-- Boolean "not Greater" reading of the comparator, the order the stable
sort in `set_tag` establishes. -/
def tagLe (a b : ExifTag) : Bool :=
  tagKeyLe a.get_group a.is_unknown b.get_group b.is_unknown

/-- The ordering the spec states for the tag sequence: group strictly
ascending, and within one group known tags never after unknown ones. -/
def tagOrderOk (a b : ExifTag) : Prop :=
  a.get_group.toNat < b.get_group.toNat ∨
    (a.get_group = b.get_group ∧ (a.is_unknown = false ∨ b.is_unknown = true))

/-- `Metadata::set_tag` of `metadata.rs`: drop any tag with the same
numeric id, append the new tag, and stably re-sort by the comparator
(Rust `sort_by` is a stable merge sort). -/
def Metadata.set_tag (m : Metadata) (input_tag : ExifTag) : Metadata :=
  let kept := m.data.filter (fun tag => tag.as_u16 ≠ input_tag.as_u16)
  { m with data := (kept ++ [input_tag]).mergeSort tagLe }

/-- `Metadata::get_tag_by_hex` of `metadata.rs`. -/
def Metadata.get_tag_by_hex (m : Metadata) (input_tag_hex : Nat) : Option ExifTag :=
  m.data.find? (fun tag => tag.as_u16 = input_tag_hex)

/-- One directory entry step of `Metadata::encode_ifd` (`metadata.rs`
lines 646-693): extend the entry table, the offset area and the running
offset with one writable tag of the group.  `u32`/`u16` wrap-around is
applied by the byte-level conversions. -/
def encodeIfdStep (endian : Endian) (acc : List Nat × List Nat × Nat) (tag : ExifTag) :
    List Nat × List Nat × Nat :=
  let ifd_vec := acc.1
  let ifd_offset_area := acc.2.1
  let next_offset := acc.2.2
  let value := tag.value_as_u8_vec endian
  let entryHead := toU8Vec16 endian tag.as_u16 ++ toU8Vec16 endian tag.format.as_u16 ++
    toU8Vec32 endian tag.number_of_components
  let string_padding : List Nat :=
    if tag.is_string then List.replicate (tag.number_of_components - value.length) 0x00 else []
  let byte_count := tag.number_of_components * tag.format.bytes_per_component
  if 4 < byte_count then
    (ifd_vec ++ entryHead ++ toU8Vec32 endian next_offset,
     ifd_offset_area ++ value ++ string_padding,
     next_offset + byte_count)
  else
    let inline := value ++ string_padding
    (ifd_vec ++ entryHead ++ inline ++ List.replicate (4 - inline.length) 0x00,
     ifd_offset_area, next_offset)

/-- `Metadata::encode_ifd` of `metadata.rs`: emit one IFD block for a
group, or `none` when it would hold no entry at all. -/
def Metadata.encode_ifd (m : Metadata) (group : ExifTagGroup) (given_offset : Nat)
    (next_ifd_link : List Nat) (subifd_tag : Option ExifTag) : Option (Nat × List Nat) :=
  let writableTags := m.data.filter (fun tag => tag.is_writable ∧ tag.get_group = group)
  let count_entries := (if subifd_tag.isSome then 1 else 0) + writableTags.length
  if count_entries = 0 then none
  else
    let next_offset0 :=
      given_offset + 2 + IFD_ENTRY_LENGTH * count_entries + next_ifd_link.length
    let folded := writableTags.foldl (encodeIfdStep m.endian) ([], [], next_offset0)
    let subifdEntry : List Nat :=
      match subifd_tag with
      | some tag =>
        toU8Vec16 m.endian tag.as_u16 ++ toU8Vec16 m.endian tag.format.as_u16 ++
          toU8Vec32 m.endian tag.number_of_components ++ toU8Vec32 m.endian folded.2.2
      | none => []
    some (folded.2.2,
      toU8Vec16 m.endian count_entries ++ folded.1 ++ subifdEntry ++ next_ifd_link ++ folded.2.1)

/-- `Metadata::encode_metadata_general` of `metadata.rs`: TIFF header,
then the IFD0, ExifIFD and InteropIFD blocks, chaining the running
offset; IFD0 always carries an `ExifOffset` pointer entry and ExifIFD
always carries an `InteropOffset` pointer entry. -/
def Metadata.encode_metadata_general (m : Metadata) : List Nat :=
  let exif_vec0 := m.endian.header
  let current_offset0 := 8
  let step1 :=
    match m.encode_ifd .IFD0 current_offset0 IFD_END (some (.ExifOffset [0])) with
    | some (off, ifd0_data) => (exif_vec0 ++ ifd0_data, off)
    | none => (exif_vec0, current_offset0)
  let step2 :=
    match m.encode_ifd .ExifIFD step1.2 IFD_END (some (.InteropOffset [0])) with
    | some (off, exififd_data) => (step1.1 ++ exififd_data, off)
    | none => step1
  let step3 :=
    match m.encode_ifd .InteropIFD step2.2 IFD_END none with
    | some (off, interopifd_data) => (step2.1 ++ interopifd_data, off)
    | none => step2
  step3.1

/-- Last stage of one `decode_ifd` entry (`metadata.rs` lines 540-606),
after id/format/raw bytes have been resolved: SubIFD offset tags recurse
via `subifdDecode` and contribute the nested directory's tags; known
tags with a mismatched on-wire format are coerced only from 16-bit
unsigned to a canonically 32-bit-unsigned tag and rejected otherwise;
everything else is built by the format-aware constructor (`.unwrap()`
panics are `panicked`).  Returns the tags this entry contributes. -/
def decodeIfdEntryTag (subifdDecode : ExifTagGroup → Nat → RRes (List ExifTag))
    (endian : Endian) (group : ExifTagGroup) (hex_tag : Nat) (format : ExifTagFormat)
    (raw_data : List Nat) : RRes (List ExifTag) :=
  match (ExifTag.from_u16 hex_tag).bind ExifTag.is_offset_tag with
  | some subifd_group =>
    (subifdDecode subifd_group (fromU8Vec endian raw_data)).bind fun subifd_result =>
      .ok subifd_result
  | none =>
    match ExifTag.from_u16 hex_tag with
    | some tag =>
      if tag.format ≠ format then
        if tag.format = .INT32U ∧ format = .INT16U then
          match tag.set_value_to_int32u_vec (u16Chunks endian raw_data) with
          | some coerced => .ok [coerced]
          | none => .panicked
        else .err
      else
        match ExifTag.from_u16_with_data hex_tag format raw_data endian group with
        | some built => .ok [built]
        | none => .panicked
    | none =>
      match ExifTag.from_u16_with_data hex_tag format raw_data endian group with
      | some built => .ok [built]
      | none => .panicked

/-- Middle stage of one `decode_ifd` entry (`metadata.rs` lines
503-538): resolve the format code (unknown codes are the decode error),
compute `byte_count` and fetch the raw value bytes — inline when
`byte_count ≤ 4`, through the 4-byte offset otherwise; an out-of-range
slice is a panic. -/
def decodeIfdEntryKind (subifdDecode : ExifTagGroup → Nat → RRes (List ExifTag))
    (encoded_data : List Nat) (endian : Endian) (group : ExifTagGroup) (entry_start : Nat)
    (hex_tag hex_format hex_component_number : Nat) : RRes (List ExifTag) :=
  match ExifTagFormat.from_u16 hex_format with
  | none => .err
  | some format =>
    let byte_count := format.bytes_per_component * hex_component_number
    let rawData? : Option (List Nat) :=
      if 4 < byte_count then
        match listSlice encoded_data (entry_start + 8) (entry_start + 12) with
        | some offsetBytes =>
          let hex_offset := fromU8Vec endian offsetBytes
          listSlice encoded_data hex_offset (hex_offset + byte_count)
        | none => none
      else listSlice encoded_data (entry_start + 8) (entry_start + 8 + byte_count)
    match rawData? with
    | none => .panicked
    | some raw_data => decodeIfdEntryTag subifdDecode endian group hex_tag format raw_data

/-- First stage of one `decode_ifd` entry (`metadata.rs` lines 483-501):
unpack the 2-byte id, 2-byte format code and 4-byte component count of
the 12-byte entry at `entry_start`; an out-of-range slice is a panic. -/
def decodeIfdEntry (subifdDecode : ExifTagGroup → Nat → RRes (List ExifTag))
    (encoded_data : List Nat) (endian : Endian) (group : ExifTagGroup) (entry_start : Nat) :
    RRes (List ExifTag) :=
  match listSlice encoded_data entry_start (entry_start + 2),
      listSlice encoded_data (entry_start + 2) (entry_start + 4),
      listSlice encoded_data (entry_start + 4) (entry_start + 8) with
  | some tagBytes, some formatBytes, some compBytes =>
    decodeIfdEntryKind subifdDecode encoded_data endian group entry_start
      (fromU8Vec endian tagBytes) (fromU8Vec endian formatBytes) (fromU8Vec endian compBytes)
  | _, _, _ => .panicked

/-- The entry loop of `Metadata::decode_ifd` (`metadata.rs` lines
482-607).  `subifdDecode` is the recursive call (same data and endian,
with one unit of fuel consumed); `remaining` counts the entries still to
process, `i` is the running entry index, `tags` the accumulator. -/
def decodeIfdLoop (subifdDecode : ExifTagGroup → Nat → RRes (List ExifTag))
    (encoded_data : List Nat) (endian : Endian) (group : ExifTagGroup) (ifd_start : Nat) :
    Nat → Nat → List ExifTag → RRes (List ExifTag)
  | 0, _, tags => .ok tags
  | remaining + 1, i, tags =>
    (decodeIfdEntry subifdDecode encoded_data endian group
        (ifd_start + (2 + i * IFD_ENTRY_LENGTH))).bind fun entryTags =>
      decodeIfdLoop subifdDecode encoded_data endian group ifd_start
        remaining (i + 1) (tags ++ entryTags)

/-- `Metadata::decode_ifd` of `metadata.rs`, fuel-indexed because its
recursion follows raw offsets in the data (the source has no cycle
guard).  Mirrors the source exactly: the "not enough data" base case
tests the TOTAL length of `encoded_data` against 8, not the bytes
remaining past `ifd_start`; the subsequent 2-byte slice and the
`assert!` panic when the entries do not fit. -/
def decode_ifd : Nat → List Nat → ExifTagGroup → Nat → Endian → RRes (List ExifTag)
  | 0, _, _, _, _ => .timeout
  | fuel + 1, encoded_data, group, ifd_start, endian =>
    if encoded_data.length ≤ 8 then .ok []
    else
      match listSlice encoded_data ifd_start (ifd_start + 2) with
      | none => .panicked
      | some countBytes =>
        let number_of_entries := fromU8Vec endian countBytes
        if 2 + IFD_ENTRY_LENGTH * number_of_entries + IFD_END.length ≤
            encoded_data.length - ifd_start then
          decodeIfdLoop (fun g off => decode_ifd fuel encoded_data g off endian)
            encoded_data endian group ifd_start number_of_entries 0 []
        else .panicked

/-- `Metadata::decode_metadata_general` of `metadata.rs`: length check,
EXIF preamble check, endian marker, then decode IFD0 (and, recursively,
its SubIFDs) from the TIFF body `encoded_data[6..]`. -/
def decode_metadata_general (fuel : Nat) (encoded_data : List Nat) :
    RRes (Endian × List ExifTag) :=
  if encoded_data.length <
      EXIF_HEADER.length + (Endian.header .Big).length + 2 + IFD_END.length then .err
  else if encoded_data.take EXIF_HEADER.length ≠ EXIF_HEADER then .err
  else
    let endian? : Option Endian :=
      if encoded_data.getD 6 0 = 0x49 ∧ encoded_data.getD 7 0 = 0x49 then some .Little
      else if encoded_data.getD 6 0 = 0x4d ∧ encoded_data.getD 7 0 = 0x4d then some .Big
      else none
    match endian? with
    | none => .err
    | some endian =>
      match listSlice encoded_data 10 14 with
      | none => .panicked
      | some offsetBytes =>
        let ifd0_offset := fromU8Vec endian offsetBytes
        match decode_ifd fuel (encoded_data.drop 6) .IFD0 ifd0_offset endian with
        | .ok all_tags => .ok (endian, all_tags)
        | .err => .err
        | .panicked => .panicked
        | .timeout => .timeout

/-- `Metadata::general_decoding_wrapper` of `metadata.rs`: a successful
container extraction whose payload fails to decode degrades (with a
diagnostic print) to `Ok` of a fresh empty `Metadata`; a failed
container extraction degrades the same way.  Rust panics unwind through
the wrapper. -/
def general_decoding_wrapper (fuel : Nat) (raw_pre_decode_general : RRes (List Nat)) :
    RRes Metadata :=
  match raw_pre_decode_general with
  | .ok pre_decode_general =>
    match decode_metadata_general fuel pre_decode_general with
    | .ok (endian, data) => .ok { endian := endian, data := data }
    | .err => .ok Metadata.new
    | .panicked => .panicked
    | .timeout => .timeout
  | .err => .ok Metadata.new
  | .panicked => .panicked
  | .timeout => .timeout

/-- `JPG_SIGNATURE` of `jpg.rs`. -/
def JPG_SIGNATURE : List Nat := [0xff, 0xd8]

/-- `check_signature` of `jpg.rs`: compare the first two bytes with the
JPEG SOI signature (the Rust slice `file_buffer[0..2]` panics on a
shorter buffer). -/
def check_signature (file_buffer : List Nat) : RRes Unit :=
  match listSlice file_buffer 0 2 with
  | none => .panicked
  | some sig => if sig = JPG_SIGNATURE then .ok () else .err

/-- `encode_metadata_jpg` of `jpg.rs`: APP1 marker, big-endian `u16`
length (2 length bytes + EXIF preamble + payload; the `u16` cast and sum
wrap modulo 2 ^ 16 — a debug build would abort on overflow), EXIF
preamble, payload. -/
def encode_metadata_jpg (exif_vec : List Nat) : List Nat :=
  let length := (2 + EXIF_HEADER.length + exif_vec.length) % 2 ^ 16
  toU8Vec16 .Big 0xffe1 ++ toU8Vec16 .Big length ++ EXIF_HEADER ++ exif_vec

/-- Modelled from the spec: `util::insert_multiple_at` (`util.rs` is not
under `src/`) — splice the bytes in at the index, shifting all
subsequent bytes right. -/
def insert_multiple_at (file_buffer : List Nat) (index : Nat) (to_insert : List Nat) :
    List Nat :=
  file_buffer.take index ++ to_insert ++ file_buffer.drop index

/-- The mutable scanning state of `clear_metadata` (`jpg.rs` lines
101-105): the buffer being edited in place, the iterator position (index
of the next byte the iterator would yield), the 1-byte read buffer
(which keeps its stale value when the iterator is exhausted), the
was-the-previous-byte-0xFF flag, and `seek_counter`. -/
structure ClearState where
  buffer : List Nat
  pos : Nat
  byte : Nat
  flagFF : Bool
  seek : Nat
deriving DecidableEq, Repr

/-- The `loop` of `clear_metadata` (`jpg.rs` lines 107-200), one fuel
unit per iteration.  The APP1 arm reads the 2-byte length (a failed
2-byte read leaves the length buffer zeroed), computes
`remaining = length - 2` (u16 wrap-around on underflow; a debug build
would abort), panics via `unreachable!` when `remaining = 0`, panics
when `nth` cannot skip the segment, splits the buffer at
`seek + remaining + 2 + 2` (a panic when out of range), shifts the tail
left to `seek`, truncates, re-creates the iterator consuming
`seek_counter + 1` elements via `nth(seek_counter)`, and finally sets
`seek_counter` to `seek_counter - 2 + 1`. -/
def clearLoop : Nat → ClearState → RRes (List Nat)
  | 0, _ => .timeout
  | fuel + 1, st =>
    let b := if h : st.pos < st.buffer.length then st.buffer[st.pos] else st.byte
    let pos1 := if st.pos < st.buffer.length then st.pos + 1 else st.pos
    if st.flagFF then
      if b = 0xe1 then
        let length :=
          match st.buffer[pos1]?, st.buffer[pos1 + 1]? with
          | some x, some y => fromU8Vec .Big [x, y]
          | _, _ => 0
        let pos2 := min (pos1 + 2) st.buffer.length
        let remaining := if 2 ≤ length then length - 2 else length + (2 ^ 16 - 2)
        if remaining = 0 then .panicked
        else if st.buffer.length < pos2 + remaining then .panicked
        else
          let s := st.seek + remaining + 2 + 2
          if st.buffer.length < s then .panicked
          else
            let newBuffer := st.buffer.take st.seek ++ st.buffer.drop s
            clearLoop fuel
              { buffer := newBuffer, pos := min (st.seek + 1) newBuffer.length, byte := b,
                flagFF := false, seek := st.seek - 2 + 1 }
      else if b = 0xd9 then .ok st.buffer
      else clearLoop fuel { st with pos := pos1, byte := b, flagFF := false, seek := st.seek + 1 }
    else
      clearLoop fuel
        { st with pos := pos1, byte := b, flagFF := (b = 0xff), seek := st.seek + 1 }

/-- `clear_metadata` of `jpg.rs`: signature check, then the in-place
APP1-removal scan. -/
def clear_metadata (fuel : Nat) (file_buffer : List Nat) : RRes (List Nat) :=
  (check_signature file_buffer).bind fun _ =>
    clearLoop fuel { buffer := file_buffer, pos := 0, byte := 0, flagFF := false, seek := 0 }

/-- The `loop` of `skip_ecs` (`jpg.rs` lines 335-362), scanning the
entropy-coded segment byte by byte over `(data, pos)`.  NOTE: the
restart-marker arm mirrors the source literally, including the literal
`0x6` (not `0xd6`) in the match at `jpg.rs` line 344.  Returns the new
cursor position; reading past the end of the data is the `read_exact`
I/O error, a negative seek target is a `seek` I/O error. -/
def skipEcsLoop : Nat → List Nat → Nat → Bool → RRes Nat
  | 0, _, _, _ => .timeout
  | fuel + 1, data, pos, flagFF =>
    if h : pos < data.length then
      let b := data[pos]
      if flagFF then
        if b = 0xd0 ∨ b = 0xd1 ∨ b = 0xd2 ∨ b = 0xd3 ∨ b = 0xd4 ∨ b = 0xd5 ∨ b = 0x6 ∨
            b = 0xd7 ∨ b = 0x00 then
          skipEcsLoop fuel data (pos + 1) false
        else if pos + 1 < 2 then .err
        else .ok (pos + 1 - 2)
      else skipEcsLoop fuel data (pos + 1) (b = 0xff)
    else .err

/-- `skip_ecs` of `jpg.rs`: start the entropy-coded-segment scan with a
clear marker flag. -/
def skip_ecs (fuel : Nat) (data : List Nat) (pos : Nat) : RRes Nat :=
  skipEcsLoop fuel data pos false

/-- The marker dispatch of the `generic_read_metadata` loop (`jpg.rs`
lines 383-437), for a marker byte `b` read at `pos` right after `0xFF`:
EOI is the "No EXIF data found" error; otherwise the 2-byte big-endian
length is read (`remaining = length - 2` with u16 wrap-around on
underflow; a debug build would abort), APP1 returns the next
`remaining` bytes, SOS skips `remaining` bytes and then the
entropy-coded segment via `skipEcsRun` before continuing with `cont`,
and any other marker skips `remaining` bytes and continues with
`cont`. -/
def readMarkerArm (cont : Nat → RRes (List Nat)) (skipEcsRun : Nat → RRes Nat)
    (data : List Nat) (b pos : Nat) : RRes (List Nat) :=
  if b = 0xd9 then .err
  else
    match listSlice data (pos + 1) (pos + 3) with
    | none => .err
    | some lengthBytes =>
      let length := fromU8Vec .Big lengthBytes
      let remaining := if 2 ≤ length then length - 2 else length + (2 ^ 16 - 2)
      if b = 0xe1 then
        match listSlice data (pos + 3) (pos + 3 + remaining) with
        | none => .err
        | some app1_buffer => .ok app1_buffer
      else if b = 0xda then
        (skipEcsRun (pos + 3 + remaining)).bind fun newPos => cont newPos
      else cont (pos + 3 + remaining)

/-- The `loop` of `generic_read_metadata` (`jpg.rs` lines 378-443) over
`(data, pos)`: each iteration reads one byte (reading past the end is
the `read_exact` I/O error); with the flag set it dispatches to
`readMarkerArm` (continuing the scan with one fuel unit consumed),
otherwise it records whether the byte is the `0xFF` marker second-half
flag. -/
def readLoop : Nat → List Nat → Nat → Bool → RRes (List Nat)
  | 0, _, _, _ => .timeout
  | fuel + 1, data, pos, flagFF =>
    if h : pos < data.length then
      let b := data[pos]
      if flagFF then
        readMarkerArm (fun newPos => readLoop fuel data newPos false)
          (fun skipStart => skipEcsLoop fuel data skipStart false) data b pos
      else readLoop fuel data (pos + 1) (b = 0xff)
    else .err

/-- `read_metadata` of `jpg.rs`: signature check, then the segment scan
starting right after the 2-byte SOI signature. -/
def read_metadata (fuel : Nat) (file_buffer : List Nat) : RRes (List Nat) :=
  (check_signature file_buffer).bind fun _ => readLoop fuel file_buffer 2 false

/-- `write_metadata` of `jpg.rs`: clear any previous APP1 metadata, then
splice the JPEG-wrapped payload in right after the SOI signature. -/
def write_metadata (fuel : Nat) (file_buffer : List Nat)
    (general_encoded_metadata : List Nat) : RRes (List Nat) :=
  (clear_metadata fuel file_buffer).bind fun cleared =>
    .ok (insert_multiple_at cleared 2 (encode_metadata_jpg general_encoded_metadata))

/-- `Metadata::new_from_vec` of `metadata.rs` for the JPEG file type:
run the JPEG container extraction, then the general decoding wrapper. -/
def new_from_vec_jpeg (read_fuel decode_fuel : Nat) (file_buffer : List Nat) : RRes Metadata :=
  general_decoding_wrapper decode_fuel (read_metadata read_fuel file_buffer)

/-- Pure abstraction of the `clear_metadata` scan over a byte suffix:
`true` when, starting with the given was-0xFF flag, the scan reaches an
EOI break (a `0xd9` byte read with the flag set) without first matching
an APP1 marker (a `0xe1` byte read with the flag set) and without
running off the end of the bytes.  On such a buffer `clear_metadata`
performs no edit at all. -/
def scanBreaks : Bool → List Nat → Bool
  | _, [] => false
  | flagFF, b :: rest =>
    if flagFF then
      if b = 0xd9 then true
      else if b = 0xe1 then false
      else scanBreaks false rest
    else scanBreaks (b = 0xff) rest

/-- C1 counterexample/witness input: the round-trip claim is checked at
the empty tag list, little endian (every tag of which is trivially
writable and group-eligible). -/
def c1EncodedEmpty : List Nat := Metadata.new.encode_metadata_general

/-- C5 counterexample input (big endian TIFF body): one IFD0 entry for
the known tag `ExifOffset` (id `0x8769`, canonically 32-bit unsigned)
declared with on-wire format code 9 (32-bit SIGNED — a mismatch that is
not the tolerated 16-bit-unsigned coercion), whose value points at a
well-formed empty IFD at offset 18. -/
def c5OffsetMismatchBody : List Nat :=
  [0x00, 0x01,
   0x87, 0x69, 0x00, 0x09, 0x00, 0x00, 0x00, 0x01, 0x00, 0x00, 0x00, 0x12,
   0x00, 0x00, 0x00, 0x00,
   0x00, 0x00, 0x00, 0x00, 0x00, 0x00]

/-- C5 coercion input (little endian TIFF body): one IFD0 entry for the
known tag `ImageWidth` (id `0x0100`, canonically 32-bit unsigned)
declared with on-wire format 16-bit unsigned and the 2-byte inline value
`v`. -/
def c5CoercionBody (v : Nat) : List Nat :=
  [0x01, 0x00,
   0x00, 0x01, 0x03, 0x00, 0x01, 0x00, 0x00, 0x00, v % 256, v / 256, 0x00, 0x00,
   0x00, 0x00, 0x00, 0x00]

/-- C5 mismatch input (little endian TIFF body): one IFD0 entry for the
known tag `ImageWidth` (canonically 32-bit unsigned) declared with the
given on-wire format, one component; the value field holds 18, which as
an offset points at the 8 trailing bytes, so the raw value bytes resolve
for every format width. -/
def c5Mismatch32Body (f : ExifTagFormat) : List Nat :=
  [0x01, 0x00,
   0x00, 0x01, f.as_u16 % 256, f.as_u16 / 256, 0x01, 0x00, 0x00, 0x00,
   0x12, 0x00, 0x00, 0x00,
   0x00, 0x00, 0x00, 0x00,
   0x00, 0x00, 0x00, 0x00, 0x00, 0x00, 0x00, 0x00]

/-- C5 mismatch input (little endian TIFF body): like
`c5Mismatch32Body` but for the known tag `ISO` (id `0x8827`, canonically
16-bit unsigned). -/
def c5Mismatch16Body (f : ExifTagFormat) : List Nat :=
  [0x01, 0x00,
   0x27, 0x88, f.as_u16 % 256, f.as_u16 / 256, 0x01, 0x00, 0x00, 0x00,
   0x12, 0x00, 0x00, 0x00,
   0x00, 0x00, 0x00, 0x00,
   0x00, 0x00, 0x00, 0x00, 0x00, 0x00, 0x00, 0x00]

/-- C5 mismatch input (little endian TIFF body): like
`c5Mismatch32Body` but for the known tag `ImageDescription` (id
`0x010e`, canonically ASCII string). -/
def c5MismatchStrBody (f : ExifTagFormat) : List Nat :=
  [0x01, 0x00,
   0x0e, 0x01, f.as_u16 % 256, f.as_u16 / 256, 0x01, 0x00, 0x00, 0x00,
   0x12, 0x00, 0x00, 0x00,
   0x00, 0x00, 0x00, 0x00,
   0x00, 0x00, 0x00, 0x00, 0x00, 0x00, 0x00, 0x00]

/-- C10 input: a well-formed JPEG byte stream — SOI, two adjacent APP1
segments (declared length 4, 2-byte payloads), a DQT-like segment, EOI. -/
def c10Buffer : List Nat :=
  [0xff, 0xd8,
   0xff, 0xe1, 0x00, 0x04, 0x21, 0x22,
   0xff, 0xe1, 0x00, 0x04, 0x31, 0x32,
   0xff, 0xdb, 0x00, 0x04, 0x41, 0x42,
   0xff, 0xd9]

/-- Result of the first `clear_metadata` on `c10Buffer`: the second APP1
segment survives (reassembled from the first segment's kept marker
prefix byte and its own bytes). -/
def c10Once : List Nat :=
  [0xff, 0xd8,
   0xff, 0xe1, 0x00, 0x04, 0x31, 0x32,
   0xff, 0xdb, 0x00, 0x04, 0x41, 0x42,
   0xff, 0xd9]

/-- Result of the second `clear_metadata`: the surviving APP1 segment is
now removed, so the two results differ. -/
def c10Twice : List Nat :=
  [0xff, 0xd8,
   0xff, 0xdb, 0x00, 0x04, 0x41, 0x42,
   0xff, 0xd9]

/-- C8 witness input: a JPEG whose APP1 segment carries the 1-byte
payload `0x00`, which the payload-level decoder rejects as too short. -/
def c8Buffer : List Nat := [0xff, 0xd8, 0xff, 0xe1, 0x00, 0x03, 0x00, 0xff, 0xd9]

/-- C1: the claim states that decoding the payload produced by encoding
a tag list `T` of writable, group-eligible tags with endianness `E`
yields exactly `(E, T)` reordered by group.  The code fails this already
at `T = []`, `E = Little`: the encoder's output starts with the TIFF
header and lacks the 6-byte EXIF preamble the decoder demands, so the
literal composition returns a decode error; and even with the preamble
prepended (as the JPEG container layer supplies it), the decoder follows
the always-emitted `InteropOffset` pointer of the ExifIFD block to
offset 44 of the 44-byte TIFF body and panics on an out-of-range slice
instead of returning `(Little, [])`. -/
theorem c1_roundtrip_fails_on_empty_list :
    decode_metadata_general 9 c1EncodedEmpty = .err ∧
    decode_metadata_general 9 (EXIF_HEADER ++ c1EncodedEmpty) = .panicked ∧
    c1EncodedEmpty.length = 44 := by
  decide

/-- C3: on the spec's concrete scenario — SOI, an APP1 segment with
declared length `0x0008` wrapping a 2-byte dummy payload, EOI — the
claim demands that `clear_metadata` yield exactly `FF D8 FF D9`.  The
code instead panics: the declared length promises 6 bytes after the
length field but only 4 remain, so the `nth` skip runs off the buffer
and hits `panic!("Could not skip to end of APP1 segment!")`. -/
theorem c3_clear_concrete_scenario_panics :
    clear_metadata 20 [0xff, 0xd8, 0xff, 0xe1, 0x00, 0x08, 0x01, 0x02, 0xff, 0xd9] =
      .panicked ∧
    .panicked ≠ RRes.ok [0xff, 0xd8, 0xff, 0xd9] := by
  decide

/-- C4: the claim (and the doc comment of `skip_ecs` itself) says every
restart marker `0xD0`-`0xD7` after `0xFF` is treated as data while any
other marker byte ends the skip with the cursor stepped back onto the
`0xFF`.  The match arm in `jpg.rs` line 344 lists `0x6` instead of
`0xd6`, so the code does the opposite on both bytes: `FF D6` ends the
skip (cursor back at index 0 on the first input), and `FF 06` is
treated as data so the scan runs on and only stops at the genuine
marker `FF C0` (cursor at index 2 on the second input, where the claim
demands index 0). -/
theorem c4_skip_ecs_restart_marker_typo :
    skip_ecs 9 [0xff, 0xd6, 0xaa] 0 = .ok 0 ∧
    skip_ecs 9 [0xff, 0x06, 0xff, 0xc0] 0 = .ok 2 := by
  decide

/-- C7: the claim says `decode_ifd` returns an empty tag list whenever
insufficient bytes remain past the start offset.  The defensive base
case in the code tests the TOTAL payload length against 8 instead of
the bytes remaining past `ifd_start`, so on a 9-byte payload with start
offset 9 (zero bytes remaining) the entry-count slice `[9..11]` is out
of range and the code panics instead of returning `Ok(vec![])`. -/
theorem c7_decode_ifd_out_of_bounds :
    decode_ifd 9 (List.replicate 9 0) .IFD0 9 .Little = .panicked ∧
    (List.replicate 9 (0 : Nat)).length = 9 := by
  decide

/-- C5 counterexample: the claim quantifies over EVERY entry whose tag
id is known, but SubIFD offset-pointer tags take the recursion path
before the format-compatibility check.  Here the known tag `ExifOffset`
(canonically 32-bit unsigned) arrives with wire format code 9 (32-bit
SIGNED) — a mismatch that is not the tolerated coercion — and the
decode nevertheless SUCCEEDS, recursing into the (empty) directory its
value points at. -/
theorem c5_offset_tag_mismatch_accepted :
    ExifTag.from_u16 0x8769 = some (.ExifOffset [0]) ∧
    (ExifTag.ExifOffset [0]).format = .INT32U ∧
    ExifTagFormat.from_u16 9 = some .INT32S ∧
    (ExifTag.ExifOffset [0]).format ≠ ExifTagFormat.INT32S ∧
    decode_ifd 9 c5OffsetMismatchBody .IFD0 0 .Big = .ok [] := by
  decide

/-- Helper for C5: the last entry stage on a canonically 32-bit-unsigned
known tag with 16-bit-unsigned wire format and a 2-byte raw value
applies the coercion, keeping the decoded 16-bit value. -/
theorem c5EntryTagStage (f : ExifTagGroup → Nat → RRes (List ExifTag)) (x y : Nat) :
    decodeIfdEntryTag f .Little .IFD0 0x0100 .INT16U [x, y] =
    .ok [.ImageWidth [fromU8Vec .Little [x, y]]] := rfl

set_option maxRecDepth 20000 in
/-- Helper for C5: the raw value slice of the coercion input. -/
theorem c5RawSliceStage (v : Nat) :
    listSlice (c5CoercionBody v) 10 12 = some [v % 256, v / 256] := rfl

set_option maxRecDepth 20000 in
/-- Helper for C5: the middle entry stage on the coercion input. -/
theorem c5EntryKindStage (f : ExifTagGroup → Nat → RRes (List ExifTag)) (v : Nat) :
    decodeIfdEntryKind f (c5CoercionBody v) .Little .IFD0 2 0x0100 3 1 =
    .ok [.ImageWidth [fromU8Vec .Little [v % 256, v / 256]]] := by
  unfold decodeIfdEntryKind
  simp only [ExifTagFormat.from_u16, ExifTagFormat.bytes_per_component, c5RawSliceStage]
  norm_num
  exact c5EntryTagStage f (v % 256) (v / 256)

set_option maxRecDepth 20000 in
/-- Helper for C5: the full entry decode on the coercion input. -/
theorem c5EntryStage (f : ExifTagGroup → Nat → RRes (List ExifTag)) (v : Nat) :
    decodeIfdEntry f (c5CoercionBody v) .Little .IFD0 2 =
    .ok [.ImageWidth [fromU8Vec .Little [v % 256, v / 256]]] := by
  unfold decodeIfdEntry
  simp only [show listSlice (c5CoercionBody v) 2 4 = some [0x00, 0x01] from rfl,
    show listSlice (c5CoercionBody v) 4 6 = some [0x03, 0x00] from rfl,
    show listSlice (c5CoercionBody v) 6 10 = some [0x01, 0x00, 0x00, 0x00] from rfl,
    show fromU8Vec .Little [0x00, 0x01] = 0x0100 from rfl,
    show fromU8Vec .Little [0x03, 0x00] = 3 from rfl,
    show fromU8Vec .Little [0x01, 0x00, 0x00, 0x00] = 1 from rfl]
  exact c5EntryKindStage f v

/-- Helper for C5: the 1-entry IFD loop on the coercion input. -/
theorem c5LoopStage (f : ExifTagGroup → Nat → RRes (List ExifTag)) (v : Nat) :
    decodeIfdLoop f (c5CoercionBody v) .Little .IFD0 0 1 0 [] =
    .ok [.ImageWidth [fromU8Vec .Little [v % 256, v / 256]]] := by
  show decodeIfdLoop f (c5CoercionBody v) .Little .IFD0 0 (0 + 1) 0 [] = _
  rw [decodeIfdLoop]
  rw [show (0 + (2 + 0 * IFD_ENTRY_LENGTH)) = 2 from rfl]
  rw [c5EntryStage f v]
  rfl

set_option maxRecDepth 20000 in
/-- Helper for C5: the whole `decode_ifd` on the coercion input,
with the result value still in raw byte form. -/
theorem c5DecodeStage (v : Nat) :
    decode_ifd 9 (c5CoercionBody v) .IFD0 0 .Little =
    .ok [.ImageWidth [fromU8Vec .Little [v % 256, v / 256]]] := by
  show decode_ifd (8 + 1) (c5CoercionBody v) .IFD0 0 .Little = _
  rw [decode_ifd]
  simp only [show listSlice (c5CoercionBody v) 0 2 = some [0x01, 0x00] from rfl,
    show fromU8Vec .Little [0x01, 0x00] = 1 from rfl,
    show (c5CoercionBody v).length = 18 from rfl, IFD_ENTRY_LENGTH, IFD_END]
  norm_num
  exact c5LoopStage _ v

/-- C5 (amended): when the IFD entry's known tag id is NOT a SubIFD
offset-pointer tag, the format tolerance is exactly as claimed — a
16-bit-unsigned wire value for a canonically 32-bit-unsigned tag
decodes successfully with the numeric value preserved for every 16-bit
value, and every other canonical/actual mismatch (shown for every wire
format against each canonical format of the modelled non-offset known
tags: 32-bit unsigned `ImageWidth`, 16-bit unsigned `ISO`, ASCII string
`ImageDescription`) fails with a decode error. -/
theorem c5_format_coercion_amended :
    (∀ v : Nat, v < 2 ^ 16 →
      decode_ifd 9 (c5CoercionBody v) .IFD0 0 .Little = .ok [.ImageWidth [v]]) ∧
    (∀ f : ExifTagFormat, f ≠ .INT32U → f ≠ .INT16U →
      decode_ifd 9 (c5Mismatch32Body f) .IFD0 0 .Little = .err) ∧
    (∀ f : ExifTagFormat, f ≠ .INT16U →
      decode_ifd 9 (c5Mismatch16Body f) .IFD0 0 .Little = .err) ∧
    (∀ f : ExifTagFormat, f ≠ .STRING →
      decode_ifd 9 (c5MismatchStrBody f) .IFD0 0 .Little = .err) := by
  refine ⟨?_, ?_, ?_, ?_⟩
  · intro v hv
    have h := c5DecodeStage v
    rwa [show fromU8Vec .Little [v % 256, v / 256] = v from by simp [fromU8Vec]; omega] at h
  · intro f h1 h2
    cases f <;> first | decide | (exact absurd rfl h1) | (exact absurd rfl h2)
  · intro f h1
    cases f <;> first | decide | (exact absurd rfl h1)
  · intro f h1
    cases f <;> first | decide | (exact absurd rfl h1)

/-- C5 witness: the amended theorem applied at the 16-bit value 511 and
at the concrete mismatches (`ImageWidth` with wire `DOUBLE`, `ISO` with
wire `INT32U`, `ImageDescription` with wire `INT16U`). -/
theorem c5_format_coercion_witness :
    decode_ifd 9 (c5CoercionBody 511) .IFD0 0 .Little = .ok [.ImageWidth [511]] ∧
    decode_ifd 9 (c5Mismatch32Body .DOUBLE) .IFD0 0 .Little = .err ∧
    decode_ifd 9 (c5Mismatch16Body .INT32U) .IFD0 0 .Little = .err ∧
    decode_ifd 9 (c5MismatchStrBody .INT16U) .IFD0 0 .Little = .err :=
  ⟨c5_format_coercion_amended.1 511 (by decide),
   c5_format_coercion_amended.2.1 .DOUBLE (by decide) (by decide),
   c5_format_coercion_amended.2.2.1 .INT32U (by decide),
   c5_format_coercion_amended.2.2.2 .INT16U (by decide)⟩

/-- Helper for C9: the comparator order is transitive (finite check over
the (group, unknown) keys it inspects). -/
theorem tagKeyLe_trans : ∀ (g1 : ExifTagGroup) (u1 : Bool) (g2 : ExifTagGroup) (u2 : Bool)
    (g3 : ExifTagGroup) (u3 : Bool), tagKeyLe g1 u1 g2 u2 = true → tagKeyLe g2 u2 g3 u3 = true →
    tagKeyLe g1 u1 g3 u3 = true := by decide

/-- Helper for C9: the comparator order is total. -/
theorem tagKeyLe_total : ∀ (g1 : ExifTagGroup) (u1 : Bool) (g2 : ExifTagGroup) (u2 : Bool),
    (tagKeyLe g1 u1 g2 u2 || tagKeyLe g2 u2 g1 u1) = true := by decide

/-- Helper for C9: the comparator order implies the spec's (group
ascending, known-before-unknown) ordering. -/
theorem tagKeyLe_imp : ∀ (g1 : ExifTagGroup) (u1 : Bool) (g2 : ExifTagGroup) (u2 : Bool),
    tagKeyLe g1 u1 g2 u2 = true →
    (g1.toNat < g2.toNat ∨ (g1 = g2 ∧ (u1 = false ∨ u2 = true))) := by decide

/-- Helper for C9: every `set_tag` result is sorted by (group ascending,
known-before-unknown). -/
theorem setTagSorted (m : Metadata) (t : ExifTag) :
    List.Pairwise tagOrderOk (m.set_tag t).data := by
  have h := @List.sorted_mergeSort ExifTag tagLe
    (fun a b c h1 h2 => tagKeyLe_trans _ _ _ _ _ _ h1 h2)
    (fun a b => tagKeyLe_total a.get_group a.is_unknown b.get_group b.is_unknown)
    ((m.data.filter fun tag => tag.as_u16 ≠ t.as_u16) ++ [t])
  exact h.imp fun hab => tagKeyLe_imp _ _ _ _ hab

/-- Helper for C9: `set_tag` preserves uniqueness of the numeric ids —
the retain pass removes every tag sharing the inserted tag's id, the
sort merely permutes. -/
theorem setTagNodup (m : Metadata) (t : ExifTag)
    (h : (m.data.map ExifTag.as_u16).Nodup) :
    ((m.set_tag t).data.map ExifTag.as_u16).Nodup := by
  have hperm : (((m.data.filter fun tag => tag.as_u16 ≠ t.as_u16) ++ [t]).mergeSort tagLe).Perm
      ((m.data.filter fun tag => tag.as_u16 ≠ t.as_u16) ++ [t]) := List.mergeSort_perm _ _
  rw [Metadata.set_tag]
  rw [List.Perm.nodup_iff (hperm.map ExifTag.as_u16)]
  rw [List.map_append]
  rw [List.nodup_append]
  refine ⟨(((List.filter_sublist _).map _)).nodup h, List.nodup_singleton _, ?_⟩
  intro a ha hb
  simp only [List.map_cons, List.map_nil, List.mem_singleton] at hb
  obtain ⟨tag, htag, rfl⟩ := List.mem_map.mp ha
  have := (List.mem_filter.mp htag).2
  simp only [decide_eq_true_eq] at this
  exact this (hb ▸ rfl)

/-- C9: after any sequence of `set_tag` mutations starting from the
empty `Metadata`, the tag sequence holds at most one tag per numeric id
(the ids are pairwise distinct) and is sorted by (group ascending, then
known-before-unknown). -/
theorem c9_set_tag_invariants (ops : List ExifTag) :
    (((ops.foldl Metadata.set_tag Metadata.new).data.map ExifTag.as_u16).Nodup) ∧
    List.Pairwise tagOrderOk (ops.foldl Metadata.set_tag Metadata.new).data := by
  suffices h : ∀ (m : Metadata), (m.data.map ExifTag.as_u16).Nodup →
      List.Pairwise tagOrderOk m.data →
      ((ops.foldl Metadata.set_tag m).data.map ExifTag.as_u16).Nodup ∧
      List.Pairwise tagOrderOk (ops.foldl Metadata.set_tag m).data by
    exact h Metadata.new (by simp [Metadata.new]) (by simp [Metadata.new])
  induction ops with
  | nil => exact fun m h1 h2 => ⟨h1, h2⟩
  | cons op rest ih =>
    intro m h1 h2
    exact ih (m.set_tag op) (setTagNodup m op h1) (setTagSorted m op)

/-- C10: the claim says `clear` is idempotent on well-formed JPEG
buffers.  On `c10Buffer` — SOI, two adjacent length-consistent APP1
segments, one ordinary segment, EOI — the first clear removes only the
first APP1 segment: after the in-place shift the scan is resumed two
bytes too far (`nth(seek_counter)` consumes `seek_counter + 1` bytes
while the code intends to re-read from `seek_counter - 2`), so the
marker of the now-adjacent second APP1 segment is skipped over and that
segment survives.  The second clear then removes it, so
`clear (clear B) ≠ clear B`. -/
theorem c10_clear_not_idempotent :
    clear_metadata 40 c10Buffer = .ok c10Once ∧
    clear_metadata 40 c10Once = .ok c10Twice ∧
    c10Once ≠ c10Twice := by
  decide

/-- Helper for C6: once the byte iterator of the `clear_metadata` loop
is exhausted on the buffer `FF D8` the read buffer keeps the stale byte
`0xD8` and the flag stays clear, so every further iteration returns to
the same configuration (only `seek_counter` grows) — for every fuel the
loop model times out. -/
theorem clearStuckAux : ∀ (n seek : Nat),
    clearLoop n
      { buffer := [0xff, 0xd8], pos := 2, byte := 0xd8, flagFF := false, seek := seek } =
      .timeout
  | 0, _ => rfl
  | n + 1, seek => clearStuckAux n (seek + 1)

/-- C6: the claim says the `clear_metadata` scan terminates on every
input buffer — in particular that a buffer ending without an EOI marker
still yields a completed or failed call.  On the 2-byte buffer `FF D8`
(a valid signature, then end of data) the loop never terminates: the
exhausted iterator returns `None`, the `if let` leaves the stale byte in
place, no arm ever breaks, and the loop spins forever — the model times
out at every fuel. -/
theorem c6_clear_metadata_diverges :
    ∀ fuel : Nat, clear_metadata fuel [0xff, 0xd8] = .timeout
  | 0 => rfl
  | 1 => rfl
  | m + 2 => clearStuckAux m 2

/-- C8: whenever the JPEG container-level extraction succeeds but the
payload-level EXIF decode fails with an error, the convenience
constructor returns `Ok` of a fresh empty `Metadata` (after printing a
diagnostic) instead of surfacing the decode error. -/
theorem c8_decode_failure_degrades_to_empty (read_fuel decode_fuel : Nat)
    (file_buffer pre : List Nat)
    (hread : read_metadata read_fuel file_buffer = .ok pre)
    (hdec : decode_metadata_general decode_fuel pre = .err) :
    new_from_vec_jpeg read_fuel decode_fuel file_buffer = .ok Metadata.new := by
  unfold new_from_vec_jpeg general_decoding_wrapper
  rw [hread]
  simp only [hdec]

/-- C8 witness: on `c8Buffer` the container extraction succeeds with the
1-byte payload `[0x00]`, the payload decode fails, and the constructor
returns the empty `Metadata`. -/
theorem c8_witness :
    read_metadata 9 c8Buffer = .ok [0x00] ∧
    decode_metadata_general 9 [0x00] = .err ∧
    new_from_vec_jpeg 9 9 c8Buffer = .ok Metadata.new :=
  ⟨by decide, by decide,
    c8_decode_failure_degrades_to_empty 9 9 c8Buffer [0x00] (by decide) (by decide)⟩


/-- Helper for C2: if the pure `clear_metadata` scan of the bytes still
ahead of the cursor reaches an EOI break before matching any APP1
marker, the `clear_metadata` loop terminates without editing the
buffer. -/
theorem clearNoopAux : ∀ (l B : List Nat) (pos seek byte0 : Nat) (flag : Bool) (fuel : Nat),
    B.drop pos = l → l.length < fuel → scanBreaks flag l = true →
    clearLoop fuel { buffer := B, pos := pos, byte := byte0, flagFF := flag, seek := seek } =
      .ok B := by
  intro l
  induction l with
  | nil =>
    intro B pos seek byte0 flag fuel hdrop hfuel hscan
    simp [scanBreaks] at hscan
  | cons b rest ih =>
    intro B pos seek byte0 flag fuel hdrop hfuel hscan
    match fuel, hfuel with
    | f + 1, hfuel =>
    have hlt : pos < B.length := by
      by_contra hc
      rw [List.drop_eq_nil_of_le (Nat.le_of_not_lt hc)] at hdrop
      exact absurd hdrop (by simp)
    have hget? : B[pos]? = some b := by
      have h0 : (B.drop pos)[0]? = B[pos + 0]? := List.getElem?_drop B pos 0
      rw [hdrop] at h0
      simpa using h0.symm
    have hget : B[pos] = b := by
      have := List.getElem?_eq_getElem hlt
      rw [this] at hget?
      exact Option.some.inj hget?
    have hdrop1 : B.drop (pos + 1) = rest := by
      have h2 : List.drop 1 (List.drop pos B) = List.drop (pos + 1) B := List.drop_drop 1 pos B
      rw [hdrop] at h2
      simpa using h2.symm
    rw [clearLoop]
    simp only [dif_pos hlt, if_pos hlt, hget]
    have hrest : rest.length < f := by
      simp only [List.length_cons] at hfuel
      omega
    cases flag with
    | false =>
      rw [if_neg (by simp)]
      exact ih B (pos + 1) (seek + 1) b (decide (b = 0xff)) f hdrop1 hrest hscan
    | true =>
      rw [if_pos rfl]
      by_cases hb : b = 0xe1
      · simp [scanBreaks, hb] at hscan
      · rw [if_neg hb]
        by_cases hb9 : b = 0xd9
        · rw [if_pos hb9]
        · rw [if_neg hb9]
          have hscan2 : scanBreaks false rest = true := by
            simpa [scanBreaks, hb, hb9] using hscan
          exact ih B (pos + 1) (seek + 1) b false f hdrop1 hrest hscan2

/-- Helper for C2: the signature check accepts every buffer starting
with the 2-byte SOI signature. -/
theorem checkSigCons (mid : List Nat) :
    check_signature (0xff :: 0xd8 :: mid) = .ok () := by
  unfold check_signature listSlice
  rw [if_pos (by constructor <;> simp)]
  simp [JPG_SIGNATURE]

/-- Helper for C2: on a buffer whose scan breaks at EOI without an APP1
match, `clear_metadata` is the identity. -/
theorem clearNoopTop (mid : List Nat) (fuel : Nat)
    (hfuel : mid.length + 2 < fuel)
    (hscan : scanBreaks false (0xff :: 0xd8 :: mid) = true) :
    clear_metadata fuel (0xff :: 0xd8 :: mid) = .ok (0xff :: 0xd8 :: mid) := by
  unfold clear_metadata
  rw [checkSigCons]
  show clearLoop fuel _ = _
  exact clearNoopAux (0xff :: 0xd8 :: mid) (0xff :: 0xd8 :: mid) 0 0 0 false fuel rfl
    (by simpa using hfuel) hscan

/-- Helper for C2: reading a buffer that carries a freshly encoded APP1
segment right after the SOI signature returns the EXIF preamble
followed by the payload, for every payload below the u16 length
limit. -/
theorem readInserted (P rest : List Nat) (f : Nat) (hP : P.length ≤ 65527) :
    read_metadata (f + 2) (0xff :: 0xd8 :: (encode_metadata_jpg P ++ rest)) =
      .ok (EXIF_HEADER ++ P) := by
  have hmod : (2 + EXIF_HEADER.length + P.length) % 2 ^ 16 = 8 + P.length := by
    rw [show EXIF_HEADER.length = 6 from rfl]
    omega
  have hR : (0xff :: 0xd8 :: (encode_metadata_jpg P ++ rest)) =
      0xff :: 0xd8 :: 0xff :: 0xe1 :: ((8 + P.length) / 256 % 256) :: ((8 + P.length) % 256) ::
        (0x45 :: 0x78 :: 0x69 :: 0x66 :: 0x00 :: 0x00 :: (P ++ rest)) := by
    simp [encode_metadata_jpg, toU8Vec16, EXIF_HEADER]
    omega
  unfold read_metadata
  rw [checkSigCons]
  show readLoop (f + 2) _ 2 false = _
  rw [hR]
  rw [readLoop]
  rw [dif_pos (by simp)]
  simp only [List.getElem_cons_succ, List.getElem_cons_zero]
  rw [if_neg (by simp)]
  norm_num
  rw [readLoop]
  rw [dif_pos (by simp)]
  simp only [List.getElem_cons_succ, List.getElem_cons_zero]
  simp only [if_true]
  unfold readMarkerArm
  rw [if_neg (by norm_num)]
  have hs1 : listSlice (255 :: 216 :: 255 :: 225 :: ((8 + P.length) / 256 % 256) ::
      ((8 + P.length) % 256) :: (69 :: 120 :: 105 :: 102 :: 0 :: 0 :: (P ++ rest))) (3 + 1) (3 + 3) =
      some [(8 + P.length) / 256 % 256, (8 + P.length) % 256] := by
    unfold listSlice
    rw [if_pos (by constructor <;> simp)]
    rfl
  rw [hs1]
  have hlen : fromU8Vec .Big [(8 + P.length) / 256 % 256, (8 + P.length) % 256] =
      8 + P.length := by
    simp [fromU8Vec]
    omega
  simp only [hlen]
  rw [if_pos (show (2:Nat) ≤ 8 + P.length by omega)]
  simp only [if_true]
  have hs2 : listSlice (255 :: 216 :: 255 :: 225 :: ((8 + P.length) / 256 % 256) ::
      ((8 + P.length) % 256) :: (69 :: 120 :: 105 :: 102 :: 0 :: 0 :: (P ++ rest)))
      (3 + 3) (3 + 3 + (8 + P.length - 2)) = some (EXIF_HEADER ++ P) := by
    unfold listSlice
    rw [if_pos (by refine ⟨by omega, ?_⟩; simp; omega)]
    have hcount : 3 + 3 + (8 + P.length - 2) - (3 + 3) = (EXIF_HEADER ++ P).length := by
      simp [EXIF_HEADER]
      omega
    rw [hcount]
    show some (((69 :: 120 :: 105 :: 102 :: 0 :: 0 :: (P ++ rest)) : List Nat).take
      (EXIF_HEADER ++ P).length) = some (EXIF_HEADER ++ P)
    have hsplit : (69 :: 120 :: 105 :: 102 :: 0 :: 0 :: (P ++ rest) : List Nat) =
        (EXIF_HEADER ++ P) ++ rest := by
      simp [EXIF_HEADER]
    rw [hsplit, List.take_left]
  rw [hs2]

/-- C2 (amended): for every well-formed JPEG buffer
`B = FF D8 ++ mid` on which the clear scan reaches its EOI break
without matching any APP1 segment, and every payload `P` of at most
65527 bytes, `write_metadata` produces exactly
`FF D8 ++ [FF E1][len][EXIF preamble][P] ++ mid` — the fresh APP1
segment spliced right after the 2-byte SOI signature, and the only
APP1 segment since the rest of the buffer is exactly the APP1-free
`mid` — and reading that buffer back returns `EXIF_HEADER ++ P`
(the preamble plus the payload, NOT the bare payload the original
claim stated). -/
theorem c2_write_read_amended (mid P : List Nat)
    (hscan : scanBreaks false (0xff :: 0xd8 :: mid) = true)
    (hP : P.length ≤ 65527) :
    write_metadata (mid.length + 3) (0xff :: 0xd8 :: mid) P =
      .ok (0xff :: 0xd8 :: (encode_metadata_jpg P ++ mid)) ∧
    read_metadata 9 (0xff :: 0xd8 :: (encode_metadata_jpg P ++ mid)) =
      .ok (EXIF_HEADER ++ P) := by
  constructor
  · unfold write_metadata
    rw [clearNoopTop mid (mid.length + 3) (by omega) hscan]
    show RRes.ok (insert_multiple_at (0xff :: 0xd8 :: mid) 2 (encode_metadata_jpg P)) = _
    unfold insert_multiple_at
    simp
  · exact readInserted P mid 7 hP

/-- C2 witness: the amended theorem applied at the minimal JPEG
`FF D8 FF D9` and the 1-byte payload `0xAB`. -/
theorem c2_write_read_witness :
    write_metadata 5 [0xff, 0xd8, 0xff, 0xd9] [0xab] =
      .ok (0xff :: 0xd8 :: (encode_metadata_jpg [0xab] ++ [0xff, 0xd9])) ∧
    read_metadata 9 (0xff :: 0xd8 :: (encode_metadata_jpg [0xab] ++ [0xff, 0xd9])) =
      .ok (EXIF_HEADER ++ [0xab]) :=
  c2_write_read_amended [0xff, 0xd9] [0xab] (by decide) (by decide)

/-- C2 counterexample: the claim states `read(write(B, P)) == P`.  At
the well-formed buffer `FF D8 FF D9` and the empty payload, reading
back the written buffer yields the 6-byte EXIF preamble, not the empty
payload: `read_metadata` returns everything after the APP1 length
field, which includes the preamble that `write_metadata` prepends. -/
theorem c2_jpeg_write_read_counterexample :
    (write_metadata 9 [0xff, 0xd8, 0xff, 0xd9] []).bind (read_metadata 9) = .ok EXIF_HEADER ∧
    EXIF_HEADER ≠ ([] : List Nat) := by decide

end LittleExif
